import Mathlib

/-!
Verification of the review-board token resource and review business rules.

The token-resource definitions are a shallow embedding of
`src/reviewboard/webapi/resources/api_token.py` (`APITokenResource.create`,
`APITokenResource.update`, `APITokenResource._validate_policy`).  The JSON
parser (`json.loads`), the policy schema validator
(`WebAPIToken.validate_policy`), the token generator and the importing of
extra data are external to that file and are passed in as parameters.

The review definitions (`revoke_ship_it`, `all_participants`, `can_publish`)
model `reviewboard.reviews.models.Review`, whose source is not part of this
excerpt; they are modelled from the specification and pinned by the unit
tests in `src/reviewboard/reviews/tests/test_review.py`.
-/

/-- Python exception values that the token resource distinguishes.  The
source catches `ValueError` in `create` and `ValidationError` in `update`,
so the embedding keeps the two classes apart. -/
inductive PyExc where
  | valueError (msg : String)
  | validationError (msg : String)
  deriving DecidableEq, Repr

/-- A persisted `WebAPIToken` record, restricted to the fields the resource
handlers read or write.  `policy` holds either the raw policy string (as
passed by `create` to the token generator) or a parsed policy value (as
assigned by `update`). -/
structure Token (Policy : Type) where
  tokenValue : String
  note : String
  policy : String ⊕ Policy
  expires : Option Nat
  valid : Bool
  invalid_reason : String
  invalid_date : Option Nat
  extra_data : List (String × String)
  deriving DecidableEq

/-- The possible outcomes of a token-resource handler: the structured API
errors it can return, a propagated (uncaught) Python exception, or a
success payload with its HTTP status and the serialized token. -/
inductive ApiResponse (Policy : Type) where
  | doesNotExist
  | noAccess
  | invalidFormData (field message : String)
  | tokenGenerationFailed (message : String)
  | importExtraDataError (payload : String)
  | uncaughtExc (e : PyExc)
  | success (status : Nat) (tok : Token Policy)
  deriving DecidableEq

variable {Policy : Type}

/-- Embedding of `APITokenResource._validate_policy`: runs `json.loads` (`parse`), turning
any parse failure into a `ValidationError` with the prefix below, then runs
the schema validator.  Modelled from the spec: `WebAPIToken.validate_policy`
is not under src; per the spec a policy failing schema validation is a
malformed-policy validation error, so its failures are `ValidationError`s. -/
def validate_policy (parse : String → Except String Policy)
    (validate_schema : Policy → Except String Unit)
    (policy_str : String) : Except PyExc Policy :=
  match parse policy_str with
  | .error e => .error (.validationError ("The policy is not valid JSON: " ++ e))
  | .ok p =>
    match validate_schema p with
    | .error m => .error (.validationError m)
    | .ok _ => .ok p

/-- Embedding of `APITokenResource.create`: resolve the user (404 on failure), check list
access, validate the policy — catching only `ValueError`, so the
`ValidationError` raised by `_validate_policy` propagates uncaught — then
generate and persist the token, and finally import `extra_fields`, saving
the updated extra data.  `gen_outcome` is the outcome of
`WebAPIToken.objects.generate_token` (the generated token value, or a
`WebAPITokenGenerationError` message); on success the record is persisted
into `db` at that point.  `import_outcome` is the outcome of
`import_extra_data` (the new extra-data mapping, or an error payload). -/
def create (user_exists list_access : Bool)
    (parse : String → Except String Policy)
    (validate_schema : Policy → Except String Unit)
    (gen_outcome : Except String String)
    (note policy_str : String) (expires : Option Nat)
    (extra_fields : List (String × String))
    (import_outcome : Except String (List (String × String)))
    (db : List (Token Policy)) : ApiResponse Policy × List (Token Policy) :=
  if user_exists = false then (.doesNotExist, db)
  else if list_access = false then (.noAccess, db)
  else
    match validate_policy parse validate_schema policy_str with
    | .error (.valueError m) => (.invalidFormData "policy" m, db)
    | .error e => (.uncaughtExc e, db)
    | .ok _ =>
      match gen_outcome with
      | .error m => (.tokenGenerationFailed m, db)
      | .ok token_value =>
        let tok : Token Policy :=
          { tokenValue := token_value
            note := note
            policy := .inl policy_str
            expires := expires
            valid := true
            invalid_reason := ""
            invalid_date := none
            extra_data := [] }
        if extra_fields.isEmpty then
          (.success 201 tok, db ++ [tok])
        else
          match import_outcome with
          | .error payload => (.importExtraDataError payload, db ++ [tok])
          | .ok new_extra =>
            let tok2 := { tok with extra_data := new_extra }
            (.success 201 tok2, db ++ [tok2])

/-- The request fields an update may carry.  A `none` field is absent from
the request; `expires` is nullable, so its value is itself an option. -/
structure UpdateArgs where
  expires : Option (Option Nat) := none
  note : Option String := none
  policy : Option String := none
  valid : Option Bool := none
  invalid_reason : Option String := none

/-- The in-memory field assignments `update` performs before the policy,
validity and extra-data steps: `token.expires = kwargs[...]` and
`token.note = kwargs[...]` when those fields are present. -/
def apply_args_pre (args : UpdateArgs) (tok : Token Policy) : Token Policy :=
  let t1 := match args.expires with
    | some v => { tok with expires := v }
    | none => tok
  match args.note with
  | some n => { t1 with note := n }
  | none => t1

/-- Modelled from the spec: `WebAPIToken.objects.invalidate_token` is not
under src; per the spec it stores `valid=false`, the supplied reason and the
invalidation timestamp on the token record. -/
def invalidate_token (now : Nat) (reason : String) (tok : Token Policy) :
    Token Policy :=
  { tok with valid := false, invalid_reason := reason, invalid_date := some now }

/-- The tail of `update` after the validity step: import `extra_fields`
(returning the error payload before any save, leaving the persisted record
`stored_now`), then `token.save()` persists the in-memory record. -/
def update_finish (extra_fields : List (String × String))
    (import_outcome : Except String (List (String × String)))
    (stored_now mem : Token Policy) : ApiResponse Policy × Token Policy :=
  if extra_fields.isEmpty then (.success 200 mem, mem)
  else
    match import_outcome with
    | .error payload => (.importExtraDataError payload, stored_now)
    | .ok new_extra =>
      let mem2 := { mem with extra_data := new_extra }
      (.success 200 mem2, mem2)

/-- The validity step of `update`: `valid=true` is rejected with
INVALID_FORM_DATA naming the `valid` field before any save; `valid=false`
invalidates the token (the invalidation is applied by the manager, hence to
the persisted record immediately, and to the in-memory record that the
final save persists). -/
def update_after_policy (args : UpdateArgs)
    (extra_fields : List (String × String))
    (import_outcome : Except String (List (String × String)))
    (now : Nat) (stored mem : Token Policy) : ApiResponse Policy × Token Policy :=
  match args.valid with
  | some true =>
    (.invalidFormData "valid"
      "This can only be used to invalidate the token. You cannot set valid to true.",
     stored)
  | some false =>
    let reason := args.invalid_reason.getD ""
    update_finish extra_fields import_outcome
      (invalidate_token now reason stored)
      (invalidate_token now reason mem)
  | none => update_finish extra_fields import_outcome stored mem

/-- Embedding of `APITokenResource.update`: resolve the token (404 on failure), check
access, apply `expires` and `note`, validate and assign `policy` — here the
`ValidationError` is caught and returned as INVALID_FORM_DATA naming the
policy field — then handle `valid`, import `extra_fields` and save.
`stored` is the persisted record of the addressed token; the second
component of the result is the persisted record after the request. -/
def update (found access : Bool)
    (parse : String → Except String Policy)
    (validate_schema : Policy → Except String Unit)
    (args : UpdateArgs)
    (extra_fields : List (String × String))
    (import_outcome : Except String (List (String × String)))
    (now : Nat)
    (stored : Token Policy) : ApiResponse Policy × Token Policy :=
  if found = false then (.doesNotExist, stored)
  else if access = false then (.noAccess, stored)
  else
    let mem := apply_args_pre args stored
    match args.policy with
    | some s =>
      match validate_policy parse validate_schema s with
      | .error (.validationError m) => (.invalidFormData "policy" m, stored)
      | .error e => (.uncaughtExc e, stored)
      | .ok p =>
        update_after_policy args extra_fields import_outcome now stored
          { mem with policy := .inr p }
    | none => update_after_policy args extra_fields import_outcome now stored mem

/-- Modelled from the spec: the canonical ship-it text `Review.SHIP_IT_TEXT`
(the Review model is not under src; the tests reference the constant but its
value is not in the excerpt). -/
def SHIP_IT_TEXT : String := "Ship It!"

/-- Modelled from the spec: the canonical revoked-ship-it marker
`Review.REVOKED_SHIP_IT_TEXT`, distinct from the ship-it text. -/
def REVOKED_SHIP_IT_TEXT : String := "~~Ship It!~~"

/-- The mutable review fields that `revoke_ship_it` may touch, plus the
review timestamp observed by the tests. -/
structure ReviewState where
  ship_it : Bool
  body_top : String
  extra_data : List (String × Bool)
  timestamp : Nat
  deriving DecidableEq

/-- The parent review-request fields observed by the tests. -/
structure ReviewRequestState where
  time_added : Nat
  last_updated : Nat
  shipit_count : Nat
  deriving DecidableEq

/-- The error raised when ship-it revocation fails, carrying a
human-readable message. -/
structure RevokeShipItError where
  message : String
  deriving DecidableEq

/-- Outcome of dispatching a notification signal to its handlers: either
every handler returned, or some handler raised with the given message. -/
inductive SignalResult where
  | ok
  | exc (msg : String)
  deriving DecidableEq

/-- Store a key in a boolean-valued association list, replacing an existing
entry for that key. -/
def setKey (k : String) (v : Bool) : List (String × Bool) → List (String × Bool)
  | [] => [(k, v)]
  | (k2, v2) :: rest =>
    if k2 = k then (k, v) :: rest else (k2, v2) :: setKey k v rest

/-- Modelled from the spec: `Review.revoke_ship_it` (the Review model is not
under src).  It fails if `ship_it` is not set; it emits the pre-revocation
signal and, if a handler raises, re-raises as `RevokeShipItError` wrapping
the message with state untouched; otherwise it sets `ship_it` to false,
rewrites `body_top` to the canonical revoked text only when it equals the
canonical ship-it text, records `extra_data` key `revoked_ship_it` as true,
decrements the review-request ship-it count, persists without touching any
timestamp field, and emits the post-revocation signal, whose handler
failures are swallowed. -/
def revoke_ship_it (revoking post_revoked : SignalResult)
    (r : ReviewState) (rr : ReviewRequestState) :
    Except RevokeShipItError Unit × ReviewState × ReviewRequestState :=
  if r.ship_it = false then
    (.error ⟨"This review is not marked Ship It!"⟩, r, rr)
  else
    match revoking with
    | .exc m => (.error ⟨"Error revoking the Ship It: " ++ m⟩, r, rr)
    | .ok =>
      let r2 : ReviewState :=
        { r with
          ship_it := false
          body_top :=
            if r.body_top = SHIP_IT_TEXT then REVOKED_SHIP_IT_TEXT
            else r.body_top
          extra_data := setKey "revoked_ship_it" true r.extra_data }
      let rr2 : ReviewRequestState :=
        { rr with shipit_count := rr.shipit_count - 1 }
      match post_revoked with
      | .ok => (.ok (), r2, rr2)
      | .exc _ => (.ok (), r2, rr2)

/-- A reply to a review: its author and whether it is public. -/
structure Reply where
  author : Nat
  public : Bool
  deriving DecidableEq

/-- Modelled from the spec: `Review.all_participants` (the Review model is
not under src) — the set of users who are the review owner or the author of
a public reply. -/
def all_participants (owner : Nat) (replies : List Reply) : Finset Nat :=
  insert owner ((replies.filter (fun rep => rep.public)).map Reply.author).toFinset

/-- A comment on a review: whether it references a draft (unpublished) diff
or interdiff, and whether it references a draft file attachment. -/
structure ReviewComment where
  on_draft_diff : Bool
  on_draft_file_attachment : Bool
  deriving DecidableEq

/-- Modelled from the spec: `Review.can_publish` (the Review model is not
under src).  Returns a success flag and an optional human-readable reason:
it fails when the parent review request is unpublished, or when a comment
references a draft diff or interdiff, or a draft file attachment.  The
message strings are pinned by the tests. -/
def can_publish (parent_public : Bool) (comments : List ReviewComment) :
    Bool × Option String :=
  if parent_public = false then
    (false,
     some "This review cannot be published until the review request is published.")
  else if comments.any (fun c => c.on_draft_diff) then
    (false,
     some "This review cannot be published, because it includes a comment on a diff which has not yet been published.")
  else if comments.any (fun c => c.on_draft_file_attachment) then
    (false,
     some "This review cannot be published, because it includes a comment on a file attachment which has not yet been published.")
  else
    (true, none)

/-- The helper `validate_policy` only ever raises `ValidationError`, never
`ValueError`: both its parse branch and the schema branch wrap failures as
`ValidationError`. -/
theorem validate_policy_no_value_error
    (parse : String → Except String Policy)
    (validate_schema : Policy → Except String Unit)
    (policy_str m : String) :
    validate_policy parse validate_schema policy_str ≠ .error (.valueError m) := by
  unfold validate_policy
  cases hp : parse policy_str with
  | error e => simp
  | ok p =>
    cases hv : validate_schema p with
    | error m2 => simp [hv]
    | ok u => simp [hv]

/-- Claim C1: the spec promises that a create request with a malformed
policy (invalid JSON) returns the structured INVALID_FORM_DATA error naming
the policy field and never a generic failure.  The code disagrees:
`_validate_policy` raises `ValidationError`, but `create` catches only
`ValueError`, so the exception propagates uncaught (a generic failure)
instead of producing the structured error.  No token is persisted.  This
theorem evaluates the embedded `create` at a malformed-policy input. -/
theorem create_malformed_policy_uncaught :
    @create Unit true true (fun _ => Except.error "Expecting value")
      (fun _ => Except.ok ()) (Except.ok "generated-token-value")
      "token note" "not json" none [] (Except.ok []) []
    = (.uncaughtExc (.validationError "The policy is not valid JSON: Expecting value"),
       []) := rfl

/-- Claim C10: token creation is not atomic with respect to extra-data
errors.  When the policy validates, the generator succeeds and importing
`extra_fields` fails, `create` returns the import error payload while the
newly generated token is already persisted in the store. -/
theorem create_persists_token_before_extra_fields
    (parse : String → Except String Policy)
    (validate_schema : Policy → Except String Unit)
    (token_value note policy_str : String) (expires : Option Nat)
    (extra_fields : List (String × String)) (payload : String)
    (db : List (Token Policy)) (p : Policy)
    (hpol : validate_policy parse validate_schema policy_str = .ok p)
    (hne : extra_fields.isEmpty = false) :
    create true true parse validate_schema (.ok token_value) note policy_str
      expires extra_fields (.error payload) db
    = (.importExtraDataError payload,
       db ++ [⟨token_value, note, .inl policy_str, expires, true, "", none, []⟩]) := by
  simp [create, hpol, hne]

/-- Witness for C10 at a concrete input. -/
theorem create_persists_token_before_extra_fields_witness :
    @create Unit true true (fun _ => Except.ok ()) (fun _ => Except.ok ())
      (Except.ok "tok-value") "note text" "policy text" none
      [("key", "value")] (Except.error "bad extra data") []
    = (.importExtraDataError "bad extra data",
       [⟨"tok-value", "note text", .inl "policy text", none, true, "", none, []⟩]) := by
  exact create_persists_token_before_extra_fields
    (fun _ => Except.ok ()) (fun _ => Except.ok ())
    "tok-value" "note text" "policy text" none [("key", "value")]
    "bad extra data" [] () rfl rfl

/-- The pre-policy field assignments leave the validity fields untouched. -/
theorem apply_args_pre_fields (args : UpdateArgs) (tok : Token Policy) :
    (apply_args_pre args tok).valid = tok.valid ∧
    (apply_args_pre args tok).invalid_reason = tok.invalid_reason ∧
    (apply_args_pre args tok).invalid_date = tok.invalid_date := by
  unfold apply_args_pre
  cases args.expires <;> cases args.note <;> exact ⟨rfl, rfl, rfl⟩

/-- When the persisted and in-memory records agree on the validity fields,
`update_finish` leaves those fields as they are. -/
theorem update_finish_fields (ef : List (String × String))
    (io : Except String (List (String × String))) (stored_now mem : Token Policy)
    (h1 : stored_now.valid = mem.valid)
    (h2 : stored_now.invalid_reason = mem.invalid_reason)
    (h3 : stored_now.invalid_date = mem.invalid_date) :
    (update_finish ef io stored_now mem).2.valid = mem.valid ∧
    (update_finish ef io stored_now mem).2.invalid_reason = mem.invalid_reason ∧
    (update_finish ef io stored_now mem).2.invalid_date = mem.invalid_date := by
  unfold update_finish
  split
  · exact ⟨rfl, rfl, rfl⟩
  · cases io with
    | error p => exact ⟨h1, h2, h3⟩
    | ok ne => exact ⟨rfl, rfl, rfl⟩

/-- When both the persisted and the in-memory record are invalid,
`update_finish` leaves an invalid persisted record. -/
theorem update_finish_valid_false (ef : List (String × String))
    (io : Except String (List (String × String))) (stored_now mem : Token Policy)
    (h1 : stored_now.valid = false) (h2 : mem.valid = false) :
    (update_finish ef io stored_now mem).2.valid = false := by
  unfold update_finish
  split
  · exact h2
  · cases io with
    | error p => exact h1
    | ok ne => exact h2

/-- Claim C2: for an existing, accessible token, an update request carrying
valid=true returns an INVALID_FORM_DATA validation error regardless of the
token's current state, and the persisted record is unchanged by the
request. -/
theorem update_valid_true_rejected
    (parse : String → Except String Policy)
    (validate_schema : Policy → Except String Unit)
    (args : UpdateArgs) (extra_fields : List (String × String))
    (import_outcome : Except String (List (String × String)))
    (now : Nat) (stored : Token Policy)
    (hvalid : args.valid = some true) :
    (∃ f m, (update true true parse validate_schema args extra_fields
        import_outcome now stored).1 = ApiResponse.invalidFormData f m) ∧
    (update true true parse validate_schema args extra_fields
        import_outcome now stored).2 = stored := by
  have h2 : ∀ mem : Token Policy,
      (∃ f m, (update_after_policy args extra_fields import_outcome now stored
          mem).1 = ApiResponse.invalidFormData f m) ∧
      (update_after_policy args extra_fields import_outcome now stored mem).2
        = stored := by
    intro mem
    unfold update_after_policy
    rw [hvalid]
    exact ⟨⟨"valid", _, rfl⟩, rfl⟩
  cases hpol : args.policy with
  | none => simpa [update, hpol] using h2 (apply_args_pre args stored)
  | some s =>
    cases hres : validate_policy parse validate_schema s with
    | error e =>
      cases e with
      | valueError m =>
        exact absurd hres (validate_policy_no_value_error parse validate_schema s m)
      | validationError m =>
        refine ⟨⟨"policy", m, ?_⟩, ?_⟩ <;> simp [update, hpol, hres]
    | ok p =>
      simpa [update, hpol, hres] using
        h2 { apply_args_pre args stored with policy := Sum.inr p }

/-- Witness for C2 at a concrete token and request. -/
theorem update_valid_true_rejected_witness :
    (∃ f m, (@update Unit true true (fun _ => Except.ok ()) (fun _ => Except.ok ())
        { valid := some true } [] (Except.ok []) 3
        ⟨"tv", "a note", Sum.inl "p", none, true, "", none, []⟩).1
      = ApiResponse.invalidFormData f m) ∧
    (@update Unit true true (fun _ => Except.ok ()) (fun _ => Except.ok ())
        { valid := some true } [] (Except.ok []) 3
        ⟨"tv", "a note", Sum.inl "p", none, true, "", none, []⟩).2
      = ⟨"tv", "a note", Sum.inl "p", none, true, "", none, []⟩ :=
  update_valid_true_rejected (fun _ => Except.ok ()) (fun _ => Except.ok ())
    { valid := some true } [] (Except.ok []) 3
    ⟨"tv", "a note", Sum.inl "p", none, true, "", none, []⟩ rfl

/-- Claim C3: validity is irreversible.  First, an update carrying
valid=false on an existing, accessible token whose policy field (when
present) validates leaves the persisted record invalid, with the supplied
reason (defaulting to the empty string) and the invalidation timestamp
recorded.  Second, no update, whatever its arguments, turns a persisted
invalid token valid again.  Third, create only adds records, never altering
an existing one, so it cannot resurrect a token either. -/
theorem token_validity_irreversible
    (parse : String → Except String Policy)
    (validate_schema : Policy → Except String Unit)
    (args : UpdateArgs) (extra_fields : List (String × String))
    (import_outcome : Except String (List (String × String)))
    (now : Nat) (stored : Token Policy) :
    (args.valid = some false →
      (∀ s, args.policy = some s →
        ∃ p, validate_policy parse validate_schema s = .ok p) →
      (update true true parse validate_schema args extra_fields
          import_outcome now stored).2.valid = false ∧
      (update true true parse validate_schema args extra_fields
          import_outcome now stored).2.invalid_reason
        = args.invalid_reason.getD "" ∧
      (update true true parse validate_schema args extra_fields
          import_outcome now stored).2.invalid_date = some now) ∧
    (∀ found access : Bool, stored.valid = false →
      (update found access parse validate_schema args extra_fields
          import_outcome now stored).2.valid = false) ∧
    (∀ (user_exists list_access : Bool) (gen_outcome : Except String String)
        (note policy_str : String) (expires : Option Nat)
        (db : List (Token Policy)) (t : Token Policy), t ∈ db →
      t ∈ (create user_exists list_access parse validate_schema gen_outcome
            note policy_str expires extra_fields import_outcome db).2) := by
  refine ⟨?_, ?_, ?_⟩
  · intro hv hp
    have hfin : ∀ mem : Token Policy,
        (update_after_policy args extra_fields import_outcome now stored
            mem).2.valid = false ∧
        (update_after_policy args extra_fields import_outcome now stored
            mem).2.invalid_reason = args.invalid_reason.getD "" ∧
        (update_after_policy args extra_fields import_outcome now stored
            mem).2.invalid_date = some now := by
      intro mem
      unfold update_after_policy
      rw [hv]
      exact update_finish_fields extra_fields import_outcome
        (invalidate_token now (args.invalid_reason.getD "") stored)
        (invalidate_token now (args.invalid_reason.getD "") mem)
        rfl rfl rfl
    cases hpol : args.policy with
    | none => simpa [update, hpol] using hfin (apply_args_pre args stored)
    | some s =>
      obtain ⟨p, hres⟩ := hp s hpol
      simpa [update, hpol, hres] using
        hfin { apply_args_pre args stored with policy := Sum.inr p }
  · intro found access hinv
    have hfin : ∀ mem : Token Policy, mem.valid = false →
        (update_after_policy args extra_fields import_outcome now stored
            mem).2.valid = false := by
      intro mem hm
      unfold update_after_policy
      cases hv : args.valid with
      | none => exact update_finish_valid_false _ _ _ _ hinv hm
      | some b =>
        cases b with
        | true => exact hinv
        | false => exact update_finish_valid_false _ _ _ _ rfl rfl
    cases found with
    | false => simpa [update] using hinv
    | true =>
      cases access with
      | false => simpa [update] using hinv
      | true =>
        cases hpol : args.policy with
        | none =>
          simpa [update, hpol] using
            hfin (apply_args_pre args stored)
              ((apply_args_pre_fields args stored).1.trans hinv)
        | some s =>
          cases hres : validate_policy parse validate_schema s with
          | error e =>
            cases e with
            | valueError m => simpa [update, hpol, hres] using hinv
            | validationError m => simpa [update, hpol, hres] using hinv
          | ok p =>
            simpa [update, hpol, hres] using
              hfin { apply_args_pre args stored with policy := Sum.inr p }
                ((apply_args_pre_fields args stored).1.trans hinv)
  · intro ue la gen note ps exp db t ht
    unfold create
    repeat' split
    all_goals simp_all [List.mem_append]

/-- Witness for C3 at a concrete token, invalidation request and store. -/
theorem token_validity_irreversible_witness :
    ((@update Unit true true (fun _ => Except.ok ()) (fun _ => Except.ok ())
        { valid := some false, invalid_reason := some "compromised" } []
        (Except.ok []) 7
        ⟨"tv", "a note", Sum.inl "p", none, true, "", none, []⟩).2.valid = false ∧
     (@update Unit true true (fun _ => Except.ok ()) (fun _ => Except.ok ())
        { valid := some false, invalid_reason := some "compromised" } []
        (Except.ok []) 7
        ⟨"tv", "a note", Sum.inl "p", none, true, "", none, []⟩).2.invalid_reason
       = "compromised" ∧
     (@update Unit true true (fun _ => Except.ok ()) (fun _ => Except.ok ())
        { valid := some false, invalid_reason := some "compromised" } []
        (Except.ok []) 7
        ⟨"tv", "a note", Sum.inl "p", none, true, "", none, []⟩).2.invalid_date
       = some 7) ∧
    (@update Unit true true (fun _ => Except.ok ()) (fun _ => Except.ok ())
        { valid := some false, invalid_reason := some "compromised" } []
        (Except.ok []) 7
        ⟨"tv", "a note", Sum.inl "p", none, false, "old", some 2, []⟩).2.valid
      = false ∧
    (⟨"tv", "a note", Sum.inl "p", none, false, "old", some 2, []⟩ :
        Token Unit) ∈
      (@create Unit true true (fun _ => Except.ok ()) (fun _ => Except.ok ())
        (Except.ok "fresh") "n" "p2" none [] (Except.ok [])
        [⟨"tv", "a note", Sum.inl "p", none, false, "old", some 2, []⟩]).2 := by
  refine ⟨?_, ?_, ?_⟩
  · exact (token_validity_irreversible (fun _ => Except.ok ())
      (fun _ => Except.ok ())
      { valid := some false, invalid_reason := some "compromised" } []
      (Except.ok []) 7
      ⟨"tv", "a note", Sum.inl "p", none, true, "", none, []⟩).1
      rfl (fun s hs => nomatch hs)
  · exact (token_validity_irreversible (fun _ => Except.ok ())
      (fun _ => Except.ok ())
      { valid := some false, invalid_reason := some "compromised" } []
      (Except.ok []) 7
      ⟨"tv", "a note", Sum.inl "p", none, false, "old", some 2, []⟩).2.1
      true true rfl
  · exact (token_validity_irreversible (fun _ => Except.ok ())
      (fun _ => Except.ok ())
      { valid := some false, invalid_reason := some "compromised" } []
      (Except.ok []) 7
      ⟨"tv", "a note", Sum.inl "p", none, false, "old", some 2, []⟩).2.2
      true true (Except.ok "fresh") "n" "p2" none
      [⟨"tv", "a note", Sum.inl "p", none, false, "old", some 2, []⟩]
      ⟨"tv", "a note", Sum.inl "p", none, false, "old", some 2, []⟩
      (List.mem_singleton.mpr rfl)

/-- Looking up a key right after storing it yields the stored value. -/
theorem lookup_setKey (k : String) (v : Bool) (l : List (String × Bool)) :
    List.lookup k (setKey k v l) = some v := by
  induction l with
  | nil => simp [setKey, List.lookup]
  | cons kv rest ih =>
    obtain ⟨k2, v2⟩ := kv
    by_cases h : k2 = k
    · simp [setKey, h, List.lookup]
    · simp only [setKey, if_neg h, List.lookup]
      have hne : (k == k2) = false := beq_eq_false_iff_ne.mpr (Ne.symm h)
      rw [hne]
      exact ih

/-- Claim C4: if a pre-revocation handler raises, `revoke_ship_it` raises
`RevokeShipItError` wrapping the original message, and the review and its
review request are exactly as before the call: `ship_it` and `body_top`
keep their values and `extra_data` gains no `revoked_ship_it` key. -/
theorem revoke_ship_it_pre_signal_failure (m : String)
    (post_signal : SignalResult) (r : ReviewState) (rr : ReviewRequestState)
    (hs : r.ship_it = true) :
    (revoke_ship_it (.exc m) post_signal r rr).1
      = .error ⟨"Error revoking the Ship It: " ++ m⟩ ∧
    (revoke_ship_it (.exc m) post_signal r rr).2.1 = r ∧
    (revoke_ship_it (.exc m) post_signal r rr).2.2 = rr ∧
    (List.lookup "revoked_ship_it" r.extra_data = none →
      List.lookup "revoked_ship_it"
        (revoke_ship_it (.exc m) post_signal r rr).2.1.extra_data = none) := by
  simp [revoke_ship_it, hs]

/-- Witness for C4 on a concrete ship-it review. -/
theorem revoke_ship_it_pre_signal_failure_witness :
    (revoke_ship_it (.exc "oh no") .ok ⟨true, SHIP_IT_TEXT, [], 10⟩
        ⟨1, 2, 1⟩).1
      = .error ⟨"Error revoking the Ship It: oh no"⟩ ∧
    (revoke_ship_it (.exc "oh no") .ok ⟨true, SHIP_IT_TEXT, [], 10⟩
        ⟨1, 2, 1⟩).2.1 = ⟨true, SHIP_IT_TEXT, [], 10⟩ ∧
    (revoke_ship_it (.exc "oh no") .ok ⟨true, SHIP_IT_TEXT, [], 10⟩
        ⟨1, 2, 1⟩).2.2 = ⟨1, 2, 1⟩ ∧
    (List.lookup "revoked_ship_it"
        ((⟨true, SHIP_IT_TEXT, [], 10⟩ : ReviewState).extra_data) = none →
      List.lookup "revoked_ship_it"
        (revoke_ship_it (.exc "oh no") .ok ⟨true, SHIP_IT_TEXT, [], 10⟩
          ⟨1, 2, 1⟩).2.1.extra_data = none) :=
  revoke_ship_it_pre_signal_failure "oh no" .ok
    ⟨true, SHIP_IT_TEXT, [], 10⟩ ⟨1, 2, 1⟩ rfl

/-- Claim C5: on a review without ship-it set, `revoke_ship_it` fails with
exactly the message below and leaves the review and review request
untouched. -/
theorem revoke_ship_it_no_ship_it (revoking post_signal : SignalResult)
    (r : ReviewState) (rr : ReviewRequestState) (hs : r.ship_it = false) :
    (revoke_ship_it revoking post_signal r rr).1
      = .error ⟨"This review is not marked Ship It!"⟩ ∧
    (revoke_ship_it revoking post_signal r rr).2.1 = r ∧
    (revoke_ship_it revoking post_signal r rr).2.2 = rr := by
  simp [revoke_ship_it, hs]

/-- Witness for C5 on a concrete review without ship-it. -/
theorem revoke_ship_it_no_ship_it_witness :
    (revoke_ship_it .ok .ok ⟨false, SHIP_IT_TEXT, [], 10⟩ ⟨1, 2, 0⟩).1
      = .error ⟨"This review is not marked Ship It!"⟩ ∧
    (revoke_ship_it .ok .ok ⟨false, SHIP_IT_TEXT, [], 10⟩ ⟨1, 2, 0⟩).2.1
      = ⟨false, SHIP_IT_TEXT, [], 10⟩ ∧
    (revoke_ship_it .ok .ok ⟨false, SHIP_IT_TEXT, [], 10⟩ ⟨1, 2, 0⟩).2.2
      = ⟨1, 2, 0⟩ :=
  revoke_ship_it_no_ship_it .ok .ok ⟨false, SHIP_IT_TEXT, [], 10⟩ ⟨1, 2, 0⟩ rfl

/-- Claim C6: on a successful revocation, `ship_it` becomes false, the
`revoked_ship_it` extra-data key becomes true, and `body_top` is rewritten
to the canonical revoked text exactly when it equals the canonical ship-it
text, and is preserved verbatim otherwise. -/
theorem revoke_ship_it_success (post_signal : SignalResult)
    (r : ReviewState) (rr : ReviewRequestState) (hs : r.ship_it = true) :
    (revoke_ship_it .ok post_signal r rr).1 = .ok () ∧
    (revoke_ship_it .ok post_signal r rr).2.1.ship_it = false ∧
    List.lookup "revoked_ship_it"
      (revoke_ship_it .ok post_signal r rr).2.1.extra_data = some true ∧
    (revoke_ship_it .ok post_signal r rr).2.1.body_top
      = (if r.body_top = SHIP_IT_TEXT then REVOKED_SHIP_IT_TEXT
         else r.body_top) := by
  cases post_signal <;> simp [revoke_ship_it, hs, lookup_setKey]

/-- Witness for C6: one review whose body is the canonical text and one
with a custom body. -/
theorem revoke_ship_it_success_witness :
    ((revoke_ship_it .ok .ok ⟨true, SHIP_IT_TEXT, [], 10⟩ ⟨1, 2, 1⟩).1
      = .ok () ∧
     (revoke_ship_it .ok .ok ⟨true, SHIP_IT_TEXT, [], 10⟩ ⟨1, 2, 1⟩).2.1.ship_it
      = false ∧
     List.lookup "revoked_ship_it"
       (revoke_ship_it .ok .ok ⟨true, SHIP_IT_TEXT, [], 10⟩
         ⟨1, 2, 1⟩).2.1.extra_data = some true ∧
     (revoke_ship_it .ok .ok ⟨true, SHIP_IT_TEXT, [], 10⟩ ⟨1, 2, 1⟩).2.1.body_top
      = (if (⟨true, SHIP_IT_TEXT, [], 10⟩ : ReviewState).body_top = SHIP_IT_TEXT
         then REVOKED_SHIP_IT_TEXT
         else (⟨true, SHIP_IT_TEXT, [], 10⟩ : ReviewState).body_top)) ∧
    (revoke_ship_it .ok .ok ⟨true, "This is a test", [], 10⟩
        ⟨1, 2, 1⟩).2.1.body_top
      = (if (⟨true, "This is a test", [], 10⟩ : ReviewState).body_top
            = SHIP_IT_TEXT
         then REVOKED_SHIP_IT_TEXT
         else (⟨true, "This is a test", [], 10⟩ : ReviewState).body_top) :=
  ⟨revoke_ship_it_success .ok ⟨true, SHIP_IT_TEXT, [], 10⟩ ⟨1, 2, 1⟩ rfl,
   (revoke_ship_it_success .ok ⟨true, "This is a test", [], 10⟩
     ⟨1, 2, 1⟩ rfl).2.2.2⟩

/-- Claim C7: membership in `all_participants` is exactly being the owner
or the author of a public reply; in particular, with owner 0, public
replies by 1, 2, 3 and a non-public reply by 4, the set is exactly
the owner together with 1, 2 and 3. -/
theorem all_participants_spec :
    (∀ (u owner : Nat) (replies : List Reply),
      u ∈ all_participants owner replies ↔
        u = owner ∨ ∃ rep ∈ replies, rep.public = true ∧ rep.author = u) ∧
    all_participants 0 [⟨1, true⟩, ⟨2, true⟩, ⟨3, true⟩, ⟨4, false⟩]
      = ({0, 1, 2, 3} : Finset Nat) := by
  constructor
  · intro u owner replies
    simp only [all_participants, Finset.mem_insert, List.mem_toFinset,
      List.mem_map, List.mem_filter]
    constructor
    · rintro (h | ⟨rep, ⟨hmem, hpub⟩, hauth⟩)
      · exact Or.inl h
      · exact Or.inr ⟨rep, hmem, hpub, hauth⟩
    · rintro (h | ⟨rep, hmem, hpub, hauth⟩)
      · exact Or.inl h
      · exact Or.inr ⟨rep, ⟨hmem, hpub⟩, hauth⟩
  · decide

/-- Claim C8: `can_publish` on an unpublished parent review request returns
false with the fixed message, and on a published parent with a comment on a
draft diff or interdiff it returns false with the draft-diff message. -/
theorem can_publish_draft_checks :
    (∀ comments : List ReviewComment,
      can_publish false comments
        = (false,
           some "This review cannot be published until the review request is published.")) ∧
    (∀ comments : List ReviewComment,
      comments.any (fun c => c.on_draft_diff) = true →
      can_publish true comments
        = (false,
           some "This review cannot be published, because it includes a comment on a diff which has not yet been published.")) := by
  constructor
  · intro comments
    simp [can_publish]
  · intro comments h
    simp [can_publish, h]

/-- Witness for C8 on a concrete unpublished parent and a concrete comment
on a draft diff. -/
theorem can_publish_draft_checks_witness :
    can_publish false []
      = (false,
         some "This review cannot be published until the review request is published.") ∧
    can_publish true [⟨true, false⟩]
      = (false,
         some "This review cannot be published, because it includes a comment on a diff which has not yet been published.") :=
  ⟨can_publish_draft_checks.1 [],
   can_publish_draft_checks.2 [⟨true, false⟩] rfl⟩

/-- Claim C9: a successful revocation leaves the review timestamp and the
review-request `time_added` and `last_updated` fields unchanged, even
though it does flip `ship_it`. -/
theorem revoke_ship_it_timestamps_unchanged (post_signal : SignalResult)
    (r : ReviewState) (rr : ReviewRequestState) (hs : r.ship_it = true) :
    (revoke_ship_it .ok post_signal r rr).1 = .ok () ∧
    (revoke_ship_it .ok post_signal r rr).2.1.timestamp = r.timestamp ∧
    (revoke_ship_it .ok post_signal r rr).2.2.time_added = rr.time_added ∧
    (revoke_ship_it .ok post_signal r rr).2.2.last_updated = rr.last_updated ∧
    (revoke_ship_it .ok post_signal r rr).2.1.ship_it = false := by
  cases post_signal <;> simp [revoke_ship_it, hs]

/-- Witness for C9 on a concrete ship-it review. -/
theorem revoke_ship_it_timestamps_unchanged_witness :
    (revoke_ship_it .ok .ok ⟨true, SHIP_IT_TEXT, [], 36⟩ ⟨0, 36, 1⟩).1
      = .ok () ∧
    (revoke_ship_it .ok .ok ⟨true, SHIP_IT_TEXT, [], 36⟩ ⟨0, 36, 1⟩).2.1.timestamp
      = (⟨true, SHIP_IT_TEXT, [], 36⟩ : ReviewState).timestamp ∧
    (revoke_ship_it .ok .ok ⟨true, SHIP_IT_TEXT, [], 36⟩ ⟨0, 36, 1⟩).2.2.time_added
      = (⟨0, 36, 1⟩ : ReviewRequestState).time_added ∧
    (revoke_ship_it .ok .ok ⟨true, SHIP_IT_TEXT, [], 36⟩ ⟨0, 36, 1⟩).2.2.last_updated
      = (⟨0, 36, 1⟩ : ReviewRequestState).last_updated ∧
    (revoke_ship_it .ok .ok ⟨true, SHIP_IT_TEXT, [], 36⟩ ⟨0, 36, 1⟩).2.1.ship_it
      = false :=
  revoke_ship_it_timestamps_unchanged .ok ⟨true, SHIP_IT_TEXT, [], 36⟩
    ⟨0, 36, 1⟩ rfl
